import Mathlib

/-!
Shallow embedding of the DMA buffer-ownership and transfer-lifecycle
subsystem of an STM32F411 board-support crate:

* `src/dma2.rs` — the shared `Buffer` (runtime borrow flag + hardware lock
  state) and the `Dma` stream controller (`set_config`, `enable`, ...);
* `src/dma.rs` — the macro-generated per-stream `Transfer` handle
  (`is_done`, `wait`);
* `src/spi2.rs` — the SPI driver entry points `send_dma`, `rxtx_dma`,
  `transfer` that call into the buffer/stream layer.

Machine integers are modelled as `Nat`: the `usize` borrow flag never
exceeds `usize::MAX` (`WRITING = 2 ^ 64 - 1`) because every increment is
guarded by an assert, so plain `Nat` arithmetic coincides with the Rust
semantics.  Panics (failed `assert!`/`unwrap`) are modelled as `none` of an
`Option` result.  Hardware status registers are modelled as Boolean-valued
functions of the stream.
-/

namespace Dma2

/-- The five streams handled by `dma2.rs` (`enum DMAStream`). -/
inductive DMAStream where
  | Stream0
  | Stream1
  | Stream2
  | Stream3
  | Stream4
deriving DecidableEq

/-- `enum State` of `dma2.rs`: whether the hardware holds the buffer. -/
inductive State where
  | Unlocked
  | Locked
  | MutLocked
deriving DecidableEq

/-- `enum Error` of `dma2.rs`. -/
inductive Error where
  | InUse
  | Overrun
  | Transfer
deriving DecidableEq

/-- `const UNUSED: BorrowFlag = 0`. -/
def UNUSED : Nat := 0

/-- `const WRITING: BorrowFlag = !0` — `usize::MAX` on the 32-bit target is
`2 ^ 32 - 1`; we model the widest case `2 ^ 64 - 1`.  Only its role as a
sentinel distinct from every reachable read count matters. -/
def WRITING : Nat := 2 ^ 64 - 1

/-- The mutable state of `struct Buffer<T>`: the borrow flag, the hardware
lock state and the stream the buffer is tied to (the wrapped `data` plays
no role in the ownership protocol). -/
structure Buffer where
  flag : Nat
  state : State
  stream : DMAStream
deriving DecidableEq

/-- `Buffer::new`: flag `0`, state `Unlocked`. -/
def Buffer.new (stream : DMAStream) : Buffer :=
  { flag := 0, state := State.Unlocked, stream := stream }

/-- `Buffer::borrow`: `assert_ne!(flag, WRITING)` then `flag += 1`.
`none` models the panic. -/
def Buffer.borrow (b : Buffer) : Option Buffer :=
  if b.flag = WRITING then none
  else some { b with flag := b.flag + 1 }

/-- `Buffer::borrow_mut`: `assert_eq!(flag, UNUSED)` then `flag = WRITING`. -/
def Buffer.borrow_mut (b : Buffer) : Option Buffer :=
  if b.flag = UNUSED then some { b with flag := WRITING }
  else none

/-- `Buffer::lock`: asserts `state == Unlocked` and `flag != WRITING`,
then increments the flag and sets the state to `Locked`. -/
def Buffer.lock (b : Buffer) : Option Buffer :=
  if b.state = State.Unlocked ∧ b.flag ≠ WRITING then
    some { b with flag := b.flag + 1, state := State.Locked }
  else none

/-- `Buffer::lock_mut`: asserts `state == Unlocked` and `flag == UNUSED`,
then sets the flag to `WRITING` and the state to `MutLocked`. -/
def Buffer.lock_mut (b : Buffer) : Option Buffer :=
  if b.state = State.Unlocked ∧ b.flag = UNUSED then
    some { b with flag := WRITING, state := State.MutLocked }
  else none

/-- `Drop for Ref`: `flag -= 1`. -/
def dropRef (b : Buffer) : Buffer :=
  { b with flag := b.flag - 1 }

/-- `Drop for RefMut`: `flag = UNUSED`. -/
def dropRefMut (b : Buffer) : Buffer :=
  { b with flag := UNUSED }

/-- `Buffer::unlock`: undoes the flag adjustment of `lock`/`lock_mut`
according to the recorded state and resets the state to `Unlocked`. -/
def Buffer.unlock (b : Buffer) : Buffer :=
  let f :=
    match b.state with
    | State.Locked => b.flag - 1
    | State.MutLocked => UNUSED
    | State.Unlocked => b.flag
  { flag := f, state := State.Unlocked, stream := b.stream }

/-- The per-stream status and control bits of one DMA engine that
`release` touches: transfer-error flags (`teifN` of `lisr`/`hisr`),
transfer-complete flags (`tcifN`), and the stream enable bits (`en` of
`sNcr`). -/
structure Hw where
  teif : DMAStream → Bool
  tcif : DMAStream → Bool
  en : DMAStream → Bool

/-- Outcome of the non-blocking `nb::Result<(), Error>` poll. -/
inductive NbRes where
  | done
  | wouldBlock
  | err (e : Error)
deriving DecidableEq

/-- Which stream's transfer-complete flag the flag-clear `match` inside
`Buffer::release` actually clears.  Transcribed arm by arm from the
source: the `Stream4` arm writes `ctcif2().set_bit()` into `lifcr`
(`dma2.rs` line 458), i.e. it clears stream 2's flag, not stream 4's. -/
def clearTarget : DMAStream → DMAStream
  | DMAStream.Stream0 => DMAStream.Stream0
  | DMAStream.Stream1 => DMAStream.Stream1
  | DMAStream.Stream2 => DMAStream.Stream2
  | DMAStream.Stream3 => DMAStream.Stream3
  | DMAStream.Stream4 => DMAStream.Stream2

/-- `Buffer::release`: immediate `Ok` when already `Unlocked`; otherwise
reads the stream's error flag (error ⇒ return `Transfer`, touch nothing),
then the completion flag (set ⇒ unlock, clear a completion flag via the
clear-register write, clear the stream's enable bit, return `Ok`),
otherwise `WouldBlock`. -/
def Buffer.release (b : Buffer) (d : Hw) : NbRes × Buffer × Hw :=
  if b.state = State.Unlocked then (NbRes.done, b, d)
  else if d.teif b.stream then (NbRes.err Error.Transfer, b, d)
  else if d.tcif b.stream then
    let b1 := b.unlock
    let tgt := clearTarget b.stream
    let d1 : Hw :=
      { teif := d.teif
        tcif := fun s => if s = tgt then false else d.tcif s
        en := fun s => if s = b.stream then false else d.en s }
    (NbRes.done, b1, d1)
  else (NbRes.wouldBlock, b, d)

end Dma2

namespace Dma2

/-- C3: if `release` is called while the buffer is locked and the stream's
transfer-error flag is set, it returns the `Transfer` error and changes
nothing — the buffer state and every hardware register are returned
exactly as they were. -/
theorem release_error_leaves_state_untouched (b : Buffer) (d : Hw)
    (hs : b.state ≠ State.Unlocked) (he : d.teif b.stream = true) :
    b.release d = (NbRes.err Error.Transfer, b, d) := by
  unfold Buffer.release
  simp [hs, he]

/-- Witness for C3 at a concrete locked buffer and error-flagged stream. -/
theorem release_error_leaves_state_untouched_witness :
    (Buffer.mk 1 State.Locked DMAStream.Stream1).state ≠ State.Unlocked ∧
    (Hw.mk (fun _ => true) (fun _ => false) (fun _ => true)).teif
      DMAStream.Stream1 = true ∧
    (Buffer.mk 1 State.Locked DMAStream.Stream1).release
      (Hw.mk (fun _ => true) (fun _ => false) (fun _ => true)) =
      (NbRes.err Error.Transfer, Buffer.mk 1 State.Locked DMAStream.Stream1,
        Hw.mk (fun _ => true) (fun _ => false) (fun _ => true)) :=
  ⟨by decide, rfl,
    release_error_leaves_state_untouched
      (Buffer.mk 1 State.Locked DMAStream.Stream1)
      (Hw.mk (fun _ => true) (fun _ => false) (fun _ => true))
      (by decide) rfl⟩

/-- C1 (code bug): calling `release` on a buffer locked to `Stream4` with
the error flag clear and stream 4's completion flag set does return `Ok`,
unlock the buffer and clear stream 4's enable bit — but the flag-clear
write is `lifcr.ctcif2`, so stream 2's transfer-complete flag is cleared
while stream 4's own completion flag is left set in hardware, contrary to
the claim (and to the obviously intended `hifcr.ctcif4`). -/
theorem release_stream4_clears_wrong_flag :
    ((Buffer.mk 1 State.Locked DMAStream.Stream4).release
        (Hw.mk (fun _ => false) (fun _ => true) (fun _ => true))).1 =
      NbRes.done ∧
    ((Buffer.mk 1 State.Locked DMAStream.Stream4).release
        (Hw.mk (fun _ => false) (fun _ => true) (fun _ => true))).2.1 =
      Buffer.mk 0 State.Unlocked DMAStream.Stream4 ∧
    ((Buffer.mk 1 State.Locked DMAStream.Stream4).release
        (Hw.mk (fun _ => false) (fun _ => true) (fun _ => true))).2.2.tcif
      DMAStream.Stream4 = true ∧
    ((Buffer.mk 1 State.Locked DMAStream.Stream4).release
        (Hw.mk (fun _ => false) (fun _ => true) (fun _ => true))).2.2.tcif
      DMAStream.Stream2 = false ∧
    ((Buffer.mk 1 State.Locked DMAStream.Stream4).release
        (Hw.mk (fun _ => false) (fun _ => true) (fun _ => true))).2.2.en
      DMAStream.Stream4 = false := by
  refine ⟨rfl, rfl, rfl, rfl, rfl⟩

/-- C5: locking a buffer (read-lock from any pre-lock count `f ≠ WRITING`,
or write-lock from count `0`) and then calling `release` with the
completion flag set and the error flag clear returns the buffer to
`Unlocked` with the borrow count restored to its pre-lock value; a second
`release` on the now-`Unlocked` buffer returns `Ok` immediately and
changes neither the buffer nor any hardware register. -/
theorem lock_release_roundtrip (s : DMAStream) (f : Nat) (d : Hw)
    (hf : f ≠ WRITING) (htc : d.tcif s = true) (hte : d.teif s = false) :
    (Buffer.mk f State.Unlocked s).lock =
      some (Buffer.mk (f + 1) State.Locked s) ∧
    ((Buffer.mk (f + 1) State.Locked s).release d).1 = NbRes.done ∧
    ((Buffer.mk (f + 1) State.Locked s).release d).2.1 =
      Buffer.mk f State.Unlocked s ∧
    (Buffer.mk 0 State.Unlocked s).lock_mut =
      some (Buffer.mk WRITING State.MutLocked s) ∧
    ((Buffer.mk WRITING State.MutLocked s).release d).1 = NbRes.done ∧
    ((Buffer.mk WRITING State.MutLocked s).release d).2.1 =
      Buffer.mk 0 State.Unlocked s ∧
    ∀ d1 : Hw, (Buffer.mk f State.Unlocked s).release d1 =
      (NbRes.done, Buffer.mk f State.Unlocked s, d1) := by
  refine ⟨?_, ?_, ?_, ?_, ?_, ?_, ?_⟩
  · simp [Buffer.lock, hf]
  · simp [Buffer.release, Buffer.unlock, htc, hte]
  · simp [Buffer.release, Buffer.unlock, htc, hte]
  · simp [Buffer.lock_mut, UNUSED]
  · simp [Buffer.release, Buffer.unlock, htc, hte]
  · simp [Buffer.release, Buffer.unlock, htc, hte, UNUSED]
  · intro d1
    simp [Buffer.release]

/-- Witness for C5 at pre-lock count `3` on stream 2, with the completion
flag set and the error flag clear. -/
theorem lock_release_roundtrip_witness :
    (3 : Nat) ≠ WRITING ∧
    (Hw.mk (fun _ => false) (fun _ => true) (fun _ => true)).tcif
      DMAStream.Stream2 = true ∧
    (Hw.mk (fun _ => false) (fun _ => true) (fun _ => true)).teif
      DMAStream.Stream2 = false ∧
    ((Buffer.mk 3 State.Unlocked DMAStream.Stream2).lock =
      some (Buffer.mk 4 State.Locked DMAStream.Stream2) ∧
    ((Buffer.mk 4 State.Locked DMAStream.Stream2).release
      (Hw.mk (fun _ => false) (fun _ => true) (fun _ => true))).1 =
      NbRes.done ∧
    ((Buffer.mk 4 State.Locked DMAStream.Stream2).release
      (Hw.mk (fun _ => false) (fun _ => true) (fun _ => true))).2.1 =
      Buffer.mk 3 State.Unlocked DMAStream.Stream2 ∧
    (Buffer.mk 0 State.Unlocked DMAStream.Stream2).lock_mut =
      some (Buffer.mk WRITING State.MutLocked DMAStream.Stream2) ∧
    ((Buffer.mk WRITING State.MutLocked DMAStream.Stream2).release
      (Hw.mk (fun _ => false) (fun _ => true) (fun _ => true))).1 =
      NbRes.done ∧
    ((Buffer.mk WRITING State.MutLocked DMAStream.Stream2).release
      (Hw.mk (fun _ => false) (fun _ => true) (fun _ => true))).2.1 =
      Buffer.mk 0 State.Unlocked DMAStream.Stream2 ∧
    ∀ d1 : Hw, (Buffer.mk 3 State.Unlocked DMAStream.Stream2).release d1 =
      (NbRes.done, Buffer.mk 3 State.Unlocked DMAStream.Stream2, d1)) :=
  ⟨by decide, rfl, rfl,
    lock_release_roundtrip DMAStream.Stream2 3
      (Hw.mk (fun _ => false) (fun _ => true) (fun _ => true))
      (by decide) rfl rfl⟩

/-! Ghost-instrumented small-step semantics for the CPU/hardware sharing
discipline of one `Buffer` (claim C2).  A `Track` pairs the buffer state
with the number of live `Ref` and `RefMut` values handed out by `borrow`
and `borrow_mut`; the steps are exactly the successful operations of the
source (a failed assert panics and grants nothing, so it contributes no
step). -/

/-- A buffer together with the live accessor counts: `refs` live `Ref`s
(from `borrow`), `refMuts` live `RefMut`s (from `borrow_mut`). -/
structure Track where
  buf : Buffer
  refs : Nat
  refMuts : Nat
deriving DecidableEq

/-- One successful operation on the buffer: a granted `borrow`,
`borrow_mut`, `lock` or `lock_mut` (each conditional on the source
function not panicking), or the `Drop` of a live `Ref`/`RefMut`. -/
inductive Step : Track → Track → Prop where
  | borrow (t : Track) (b1 : Buffer) :
      t.buf.borrow = some b1 → Step t ⟨b1, t.refs + 1, t.refMuts⟩
  | borrow_mut (t : Track) (b1 : Buffer) :
      t.buf.borrow_mut = some b1 → Step t ⟨b1, t.refs, t.refMuts + 1⟩
  | lock (t : Track) (b1 : Buffer) :
      t.buf.lock = some b1 → Step t ⟨b1, t.refs, t.refMuts⟩
  | lock_mut (t : Track) (b1 : Buffer) :
      t.buf.lock_mut = some b1 → Step t ⟨b1, t.refs, t.refMuts⟩
  | dropRef (t : Track) :
      1 ≤ t.refs → Step t ⟨Dma2.dropRef t.buf, t.refs - 1, t.refMuts⟩
  | dropRefMut (t : Track) :
      1 ≤ t.refMuts → Step t ⟨Dma2.dropRefMut t.buf, t.refs, t.refMuts - 1⟩

/-- States reachable from a fresh `Buffer::new` by interleaved successful
borrows, locks and drops. -/
def Reach (s : DMAStream) (t : Track) : Prop :=
  Relation.ReflTransGen Step ⟨Buffer.new s, 0, 0⟩ t

/-- Number of live exclusive accessors: CPU `RefMut`s plus the hardware
write-lock. -/
def exclusive (t : Track) : Nat :=
  t.refMuts + (if t.buf.state = State.MutLocked then 1 else 0)

/-- Number of live shared accessors: CPU `Ref`s plus the hardware
read-lock. -/
def sharedAcc (t : Track) : Nat :=
  t.refs + (if t.buf.state = State.Locked then 1 else 0)

/-- Inductive strengthening of the sharing discipline: either no
exclusive accessor is live and the borrow flag counts the shared
accessors, or exactly one exclusive accessor is live, no shared accessor
exists, and the flag is the `WRITING` sentinel. -/
def InvFull (t : Track) : Prop :=
  (exclusive t = 0 ∧ t.buf.flag = sharedAcc t) ∨
  (exclusive t = 1 ∧ sharedAcc t = 0 ∧ t.buf.flag = WRITING)

lemma writing_pos : 0 < WRITING := by decide

lemma invFull_step {t t1 : Track} (h : Step t t1) (hI : InvFull t) :
    InvFull t1 := by
  have hw0 : 0 < WRITING := writing_pos
  obtain ⟨⟨f, st, sm⟩, r, m⟩ := t
  cases h with
  | borrow b1 hb =>
    unfold Buffer.borrow at hb
    split at hb
    · exact absurd hb (by simp)
    · rename_i hflag
      cases hb
      rcases hI with ⟨hx, hf⟩ | ⟨hx, hs, hf⟩ <;> cases st <;>
        simp_all [InvFull, exclusive, sharedAcc, UNUSED] <;> omega
  | borrow_mut b1 hb =>
    unfold Buffer.borrow_mut at hb
    split at hb
    · rename_i hflag
      cases hb
      rcases hI with ⟨hx, hf⟩ | ⟨hx, hs, hf⟩ <;> cases st <;>
        simp_all [InvFull, exclusive, sharedAcc, UNUSED] <;> omega
    · exact absurd hb (by simp)
  | lock b1 hb =>
    unfold Buffer.lock at hb
    split at hb
    · rename_i hcond
      cases hb
      obtain ⟨hst, hflag⟩ := hcond
      rcases hI with ⟨hx, hf⟩ | ⟨hx, hs, hf⟩ <;> cases st <;>
        simp_all [InvFull, exclusive, sharedAcc, UNUSED] <;> omega
    · exact absurd hb (by simp)
  | lock_mut b1 hb =>
    unfold Buffer.lock_mut at hb
    split at hb
    · rename_i hcond
      cases hb
      obtain ⟨hst, hflag⟩ := hcond
      rcases hI with ⟨hx, hf⟩ | ⟨hx, hs, hf⟩ <;> cases st <;>
        simp_all [InvFull, exclusive, sharedAcc, UNUSED] <;> omega
    · exact absurd hb (by simp)
  | dropRef hr =>
    rcases hI with ⟨hx, hf⟩ | ⟨hx, hs, hf⟩ <;> cases st <;>
      simp_all [InvFull, exclusive, sharedAcc, Dma2.dropRef, UNUSED] <;> omega
  | dropRefMut hm =>
    rcases hI with ⟨hx, hf⟩ | ⟨hx, hs, hf⟩ <;> cases st <;>
      simp_all [InvFull, exclusive, sharedAcc, Dma2.dropRefMut, UNUSED] <;> omega

lemma invFull_reach {s : DMAStream} {t : Track} (h : Reach s t) :
    InvFull t := by
  unfold Reach at h
  induction h with
  | refl =>
      exact Or.inl (by simp [exclusive, sharedAcc, Buffer.new])
  | tail hab hbc ih => exact invFull_step hbc ih

/-- C2: in every state reachable by interleaved successful `borrow`,
`borrow_mut`, `lock`, `lock_mut` calls and `Ref`/`RefMut` drops on one
shared buffer, at most one exclusive accessor (CPU `RefMut` or hardware
write-lock) is live, and while one is live no shared accessor (CPU `Ref`
or hardware read-lock) exists.  A call that would violate this fails its
assert (the source panics, modelled by `none`) and so grants no access
and contributes no step. -/
theorem borrow_lock_mutual_exclusion (s : DMAStream) (t : Track)
    (h : Reach s t) :
    exclusive t ≤ 1 ∧ (1 ≤ exclusive t → sharedAcc t = 0) := by
  rcases invFull_reach h with ⟨hx, _⟩ | ⟨hx, hs, _⟩
  · exact ⟨by omega, fun h1 => by omega⟩
  · exact ⟨by omega, fun _ => hs⟩

/-- Witness for C2: the state after two granted `borrow` calls on a fresh
buffer (two live shared accessors, no exclusive one) is reachable and
satisfies the exclusion property. -/
theorem borrow_lock_mutual_exclusion_witness :
    exclusive ⟨Buffer.mk 2 State.Unlocked DMAStream.Stream0, 2, 0⟩ ≤ 1 ∧
    (1 ≤ exclusive ⟨Buffer.mk 2 State.Unlocked DMAStream.Stream0, 2, 0⟩ →
      sharedAcc ⟨Buffer.mk 2 State.Unlocked DMAStream.Stream0, 2, 0⟩ = 0) :=
  borrow_lock_mutual_exclusion DMAStream.Stream0
    ⟨Buffer.mk 2 State.Unlocked DMAStream.Stream0, 2, 0⟩
    (Relation.ReflTransGen.tail
      (Relation.ReflTransGen.tail Relation.ReflTransGen.refl
        (Step.borrow ⟨Buffer.new DMAStream.Stream0, 0, 0⟩
          (Buffer.mk 1 State.Unlocked DMAStream.Stream0) (by decide)))
      (Step.borrow ⟨Buffer.mk 1 State.Unlocked DMAStream.Stream0, 1, 0⟩
        (Buffer.mk 2 State.Unlocked DMAStream.Stream0) (by decide)))

/-! The stream controller configuration surface (`Dma` in `src/dma2.rs`;
the macro-generated per-stream copy in `src/dma.rs` lines 204-215 is
textually identical). -/

/-- The `dir` field of the stream configuration register (`DIRW`). -/
inductive Dir where
  | PeriphToMemory
  | MemoryToPeriph
  | MemoryToMemory
deriving DecidableEq

/-- The per-stream registers touched by `set_config` and `enable`:
number-of-data (`sndtr`), peripheral address (`spar`), memory address
(`sm0ar`), the configured direction and the enable bit of `scr`. -/
structure StreamRegs where
  ndtr : Nat
  par : Nat
  m0ar : Nat
  dir : Dir
  en : Bool
deriving DecidableEq

/-- `Dma::set_config(src, dst, length)`: write `length` into `sndtr`
(16-bit field), then route the two addresses (32-bit registers) by the
configured direction: peripheral-to-memory puts `src` into `spar` and
`dst` into `sm0ar`, every other direction the opposite. -/
def set_config (src dst length : Nat) (r : StreamRegs) : StreamRegs :=
  let r1 := { r with ndtr := length % 2 ^ 16 }
  if r.dir = Dir.PeriphToMemory then
    { r1 with par := src % 2 ^ 32, m0ar := dst % 2 ^ 32 }
  else
    { r1 with par := dst % 2 ^ 32, m0ar := src % 2 ^ 32 }

/-- `Dma::enable`: set the enable bit of `scr`. -/
def enable (r : StreamRegs) : StreamRegs :=
  { r with en := true }

/-- C7: `set_config(src, dst, length)` writes `length` to the
number-of-data register, and routes the addresses into the
peripheral-address and memory-address registers according to the
configured direction. -/
theorem set_config_routes_addresses (src dst length : Nat) (r : StreamRegs)
    (hl : length < 2 ^ 16) (hs : src < 2 ^ 32) (hd : dst < 2 ^ 32) :
    (set_config src dst length r).ndtr = length ∧
    (r.dir = Dir.PeriphToMemory →
      (set_config src dst length r).par = src ∧
      (set_config src dst length r).m0ar = dst) ∧
    (r.dir ≠ Dir.PeriphToMemory →
      (set_config src dst length r).par = dst ∧
      (set_config src dst length r).m0ar = src) := by
  unfold set_config
  rcases h : r.dir <;>
    simp_all [Nat.mod_eq_of_lt, hl, hs, hd]

/-- Witness for C7 at concrete addresses, length 16, both directions. -/
theorem set_config_routes_addresses_witness :
    (16 : Nat) < 2 ^ 16 ∧ (0x1000 : Nat) < 2 ^ 32 ∧ (0x2000 : Nat) < 2 ^ 32 ∧
    ((set_config 0x1000 0x2000 16
        (StreamRegs.mk 0 0 0 Dir.PeriphToMemory false)).ndtr = 16 ∧
    ((StreamRegs.mk 0 0 0 Dir.PeriphToMemory false).dir = Dir.PeriphToMemory →
      (set_config 0x1000 0x2000 16
        (StreamRegs.mk 0 0 0 Dir.PeriphToMemory false)).par = 0x1000 ∧
      (set_config 0x1000 0x2000 16
        (StreamRegs.mk 0 0 0 Dir.PeriphToMemory false)).m0ar = 0x2000) ∧
    ((StreamRegs.mk 0 0 0 Dir.PeriphToMemory false).dir ≠ Dir.PeriphToMemory →
      (set_config 0x1000 0x2000 16
        (StreamRegs.mk 0 0 0 Dir.PeriphToMemory false)).par = 0x2000 ∧
      (set_config 0x1000 0x2000 16
        (StreamRegs.mk 0 0 0 Dir.PeriphToMemory false)).m0ar = 0x1000)) :=
  ⟨by decide, by decide, by decide,
    set_config_routes_addresses 0x1000 0x2000 16
      (StreamRegs.mk 0 0 0 Dir.PeriphToMemory false)
      (by decide) (by decide) (by decide)⟩

end Dma2

namespace Spi2

open Dma2

/-- Outcome of the plain `Result<(), dma2::Error>` returned by the SPI
DMA entry points. -/
inductive SpiRes where
  | ok
  | err (e : Dma2.Error)
deriving DecidableEq

/-- `Spi::send_dma` from `src/spi2.rs`: refuse with `InUse` while the
transmit stream's enable bit is set; otherwise read-lock the buffer,
configure the stream with the buffer address as source, the SPI data
register as destination and the buffer length (a `u16` cast that panics
at 2^16, modelled by `none`), and enable the stream. -/
def send_dma (bufAddr bufLen drAddr : Nat) (buf : Dma2.Buffer)
    (tx : StreamRegs) : Option (SpiRes × Dma2.Buffer × StreamRegs) :=
  if tx.en then some (SpiRes.err Dma2.Error.InUse, buf, tx)
  else
    match buf.lock with
    | none => none
    | some b1 =>
      if bufLen < 2 ^ 16 then
        some (SpiRes.ok, b1, enable (set_config bufAddr drAddr bufLen tx))
      else none

/-- `Spi::rxtx_dma` from `src/spi2.rs`: refuse with `InUse` while either
stream is enabled; otherwise read-lock (`Buffer::lock`, not `lock_mut`)
the transmit buffer and configure/then the receive buffer and configure,
finally enable the receive then the transmit stream. -/
def rxtx_dma (txAddr txLen rxAddr rxLen drAddr : Nat)
    (txB rxB : Dma2.Buffer) (tx rx : StreamRegs) :
    Option (SpiRes × Dma2.Buffer × Dma2.Buffer × StreamRegs × StreamRegs) :=
  if tx.en || rx.en then some (SpiRes.err Dma2.Error.InUse, txB, rxB, tx, rx)
  else
    match txB.lock with
    | none => none
    | some txB1 =>
      if txLen < 2 ^ 16 then
        let tx1 := set_config txAddr drAddr txLen tx
        match rxB.lock with
        | none => none
        | some rxB1 =>
          if rxLen < 2 ^ 16 then
            let rx1 := set_config drAddr rxAddr rxLen rx
            some (SpiRes.ok, txB1, rxB1, enable tx1, enable rx1)
          else none
      else none

/-- `Spi::transfer` from `src/spi2.rs`: refuse with `InUse` while the
transmit stream is enabled; otherwise configure both streams — both
`set_config` calls pass `u16(tx_buffer.len())`, the receive buffer's
length is never read — and enable transmit then receive.  No buffer
locking is involved (the arguments are plain slices). -/
def transfer (txAddr txLen rxAddr rxLen drAddr : Nat)
    (tx rx : StreamRegs) : Option (SpiRes × StreamRegs × StreamRegs) :=
  if tx.en then some (SpiRes.err Dma2.Error.InUse, tx, rx)
  else if txLen < 2 ^ 16 then
    some (SpiRes.ok, enable (set_config txAddr drAddr txLen tx),
      enable (set_config drAddr rxAddr txLen rx))
  else none

/-- C8: `send_dma` returns `InUse` whenever the transmit stream's enable
bit is already set, taking no buffer lock and writing no DMA register —
the buffer and the stream registers come back exactly as they went in. -/
theorem send_dma_inuse_no_side_effect (bufAddr bufLen drAddr : Nat)
    (buf : Dma2.Buffer) (tx : StreamRegs) (h : tx.en = true) :
    send_dma bufAddr bufLen drAddr buf tx =
      some (SpiRes.err Dma2.Error.InUse, buf, tx) := by
  unfold send_dma
  simp [h]

/-- Witness for C8 on an enabled stream and an unlocked buffer. -/
theorem send_dma_inuse_no_side_effect_witness :
    (StreamRegs.mk 0 0 0 Dir.PeriphToMemory true).en = true ∧
    send_dma 0x1000 16 0x4000 (Buffer.mk 0 State.Unlocked DMAStream.Stream0)
      (StreamRegs.mk 0 0 0 Dir.PeriphToMemory true) =
      some (SpiRes.err Dma2.Error.InUse,
        Buffer.mk 0 State.Unlocked DMAStream.Stream0,
        StreamRegs.mk 0 0 0 Dir.PeriphToMemory true) :=
  ⟨rfl, send_dma_inuse_no_side_effect 0x1000 16 0x4000
    (Buffer.mk 0 State.Unlocked DMAStream.Stream0)
    (StreamRegs.mk 0 0 0 Dir.PeriphToMemory true) rfl⟩

/-- C9 counterexample: with the receive buffer's borrow count at
`2 ^ 64 - 2` (reachable in the source by leaking that many `Ref`s, e.g.
via `mem::forget`), `rxtx_dma` succeeds, the read-lock pushes the count
to `2 ^ 64 - 1 = WRITING`, and the subsequent `borrow()` hits the
`WRITING` sentinel and panics — refuting the claim that a borrow after a
successful `rxtx_dma` always succeeds. -/
theorem rxtx_dma_borrow_sentinel_collision :
    rxtx_dma 0x1000 4 0x2000 4 0x4000
      (Buffer.mk 0 State.Unlocked DMAStream.Stream0)
      (Buffer.mk (2 ^ 64 - 2) State.Unlocked DMAStream.Stream1)
      (StreamRegs.mk 0 0 0 Dir.MemoryToPeriph false)
      (StreamRegs.mk 0 0 0 Dir.PeriphToMemory false) =
      some (SpiRes.ok,
        Buffer.mk 1 State.Locked DMAStream.Stream0,
        Buffer.mk (2 ^ 64 - 1) State.Locked DMAStream.Stream1,
        StreamRegs.mk 4 0x4000 0x1000 Dir.MemoryToPeriph true,
        StreamRegs.mk 4 0x4000 0x2000 Dir.PeriphToMemory true) ∧
    (Buffer.mk (2 ^ 64 - 1) State.Locked DMAStream.Stream1).borrow =
      none := by
  constructor
  · rfl
  · decide

/-- C9 (amended): after a successful `rxtx_dma`, the receive buffer is in
the shared `Locked` state with its borrow count incremented by one (not
`MutLocked` with the `WRITING` sentinel); provided that incremented count
has not reached the `WRITING` sentinel, a subsequent `borrow()` succeeds
while the DMA write is in flight, and `borrow_mut()` panics. -/
theorem rxtx_dma_rx_read_locked (txAddr txLen rxAddr rxLen drAddr : Nat)
    (txB rxB txB1 rxB1 : Dma2.Buffer) (tx rx tx1 rx1 : StreamRegs)
    (hflag : rxB.flag + 1 ≠ WRITING)
    (hok : rxtx_dma txAddr txLen rxAddr rxLen drAddr txB rxB tx rx =
      some (SpiRes.ok, txB1, rxB1, tx1, rx1)) :
    rxB1.state = State.Locked ∧ rxB1.flag = rxB.flag + 1 ∧
    rxB1.borrow = some (Buffer.mk (rxB.flag + 2) State.Locked rxB.stream) ∧
    rxB1.borrow_mut = none := by
  by_cases h1 : (tx.en || rx.en) = true
  · simp [rxtx_dma, h1] at hok
  · cases htx : txB.lock with
    | none => simp [rxtx_dma, h1, htx] at hok
    | some txB2 =>
      cases hrx : rxB.lock with
      | none => simp [rxtx_dma, h1, htx, hrx] at hok
      | some rxB2 =>
        simp [rxtx_dma, h1, htx, hrx] at hok
        obtain ⟨-, -, -, hrxB1, -, -⟩ := hok
        unfold Buffer.lock at hrx
        split at hrx
        · rename_i hcond
          cases hrx
          subst hrxB1
          refine ⟨rfl, rfl, ?_, ?_⟩
          · unfold Buffer.borrow
            simp [hflag]
          · unfold Buffer.borrow_mut
            simp [UNUSED]
        · exact absurd hrx (by simp)

/-- Witness for C9 (amended) at small concrete buffers and streams. -/
theorem rxtx_dma_rx_read_locked_witness :
    ((0 : Nat) + 1 ≠ WRITING ∧
    rxtx_dma 0x1000 4 0x2000 4 0x4000
      (Buffer.mk 0 State.Unlocked DMAStream.Stream0)
      (Buffer.mk 0 State.Unlocked DMAStream.Stream1)
      (StreamRegs.mk 0 0 0 Dir.MemoryToPeriph false)
      (StreamRegs.mk 0 0 0 Dir.PeriphToMemory false) =
      some (SpiRes.ok,
        Buffer.mk 1 State.Locked DMAStream.Stream0,
        Buffer.mk 1 State.Locked DMAStream.Stream1,
        StreamRegs.mk 4 0x4000 0x1000 Dir.MemoryToPeriph true,
        StreamRegs.mk 4 0x4000 0x2000 Dir.PeriphToMemory true)) ∧
    ((Buffer.mk 1 State.Locked DMAStream.Stream1).state = State.Locked ∧
    (Buffer.mk 1 State.Locked DMAStream.Stream1).flag =
      (Buffer.mk 0 State.Unlocked DMAStream.Stream1).flag + 1 ∧
    (Buffer.mk 1 State.Locked DMAStream.Stream1).borrow =
      some (Buffer.mk 2 State.Locked DMAStream.Stream1) ∧
    (Buffer.mk 1 State.Locked DMAStream.Stream1).borrow_mut = none) :=
  ⟨⟨by decide, by decide⟩,
    rxtx_dma_rx_read_locked 0x1000 4 0x2000 4 0x4000
      (Buffer.mk 0 State.Unlocked DMAStream.Stream0)
      (Buffer.mk 0 State.Unlocked DMAStream.Stream1)
      (Buffer.mk 1 State.Locked DMAStream.Stream0)
      (Buffer.mk 1 State.Locked DMAStream.Stream1)
      (StreamRegs.mk 0 0 0 Dir.MemoryToPeriph false)
      (StreamRegs.mk 0 0 0 Dir.PeriphToMemory false)
      (StreamRegs.mk 4 0x4000 0x1000 Dir.MemoryToPeriph true)
      (StreamRegs.mk 4 0x4000 0x2000 Dir.PeriphToMemory true)
      (by decide) (by decide)⟩

/-- C10: a successful `Spi::transfer` writes the transmit buffer's length
into the number-of-data registers of both streams, and its result does
not depend on the receive buffer's length at all. -/
theorem transfer_uses_tx_length_for_both (txAddr txLen rxAddr rxLen drAddr :
    Nat) (tx rx : StreamRegs) (hen : tx.en = false)
    (hl : txLen < 2 ^ 16) :
    (∃ tx1 rx1, transfer txAddr txLen rxAddr rxLen drAddr tx rx =
      some (SpiRes.ok, tx1, rx1) ∧ tx1.ndtr = txLen ∧ rx1.ndtr = txLen) ∧
    ∀ rxLen2, transfer txAddr txLen rxAddr rxLen drAddr tx rx =
      transfer txAddr txLen rxAddr rxLen2 drAddr tx rx := by
  have hl2 : txLen < 65536 := hl
  constructor
  · refine ⟨enable (set_config txAddr drAddr txLen tx),
      enable (set_config drAddr rxAddr txLen rx), ?_, ?_, ?_⟩
    · unfold transfer
      simp [hen, hl2]
    · unfold enable set_config
      split <;> simp [Nat.mod_eq_of_lt hl2]
    · unfold enable set_config
      split <;> simp [Nat.mod_eq_of_lt hl2]
  · intro rxLen2
    rfl

/-- Witness for C10 at a 16-byte transmit buffer and a differently sized
receive buffer. -/
theorem transfer_uses_tx_length_for_both_witness :
    ((StreamRegs.mk 0 0 0 Dir.MemoryToPeriph false).en = false ∧
      (16 : Nat) < 2 ^ 16) ∧
    ((∃ tx1 rx1, transfer 0x1000 16 0x2000 999 0x4000
        (StreamRegs.mk 0 0 0 Dir.MemoryToPeriph false)
        (StreamRegs.mk 0 0 0 Dir.PeriphToMemory false) =
        some (SpiRes.ok, tx1, rx1) ∧ tx1.ndtr = 16 ∧ rx1.ndtr = 16) ∧
    ∀ rxLen2, transfer 0x1000 16 0x2000 999 0x4000
        (StreamRegs.mk 0 0 0 Dir.MemoryToPeriph false)
        (StreamRegs.mk 0 0 0 Dir.PeriphToMemory false) =
      transfer 0x1000 16 0x2000 rxLen2 0x4000
        (StreamRegs.mk 0 0 0 Dir.MemoryToPeriph false)
        (StreamRegs.mk 0 0 0 Dir.PeriphToMemory false)) :=
  ⟨⟨rfl, by decide⟩,
    transfer_uses_tx_length_for_both 0x1000 16 0x2000 999 0x4000
      (StreamRegs.mk 0 0 0 Dir.MemoryToPeriph false)
      (StreamRegs.mk 0 0 0 Dir.PeriphToMemory false) rfl (by decide)⟩

end Spi2

namespace DmaHal

/-! Model of the macro-generated per-stream `Transfer` handle of
`src/dma.rs`.  The `streams!` instantiations wire every stream to its own
status flags (`lisr`/`tcifN`/`teifN` for streams 0-3, `hisr` for 4-7) and
its own clear bit (`lifcr`/`ctcifN`, resp. `hifcr`), so the register file
is modelled as flag vectors indexed by the stream number.  The spin loop
of `wait` is modelled by the list of successive interrupt-status-register
reads the loop observes; running out of the list means the loop is still
spinning (`none`). -/

/-- One read of the interrupt status registers: the transfer-complete and
transfer-error flags of each of the eight streams. -/
structure Isr where
  tcif : Fin 8 → Bool
  teif : Fin 8 → Bool

/-- Result type of `is_done`/`wait` (`Result<_, Error>` with the hardware
`Transfer` error). -/
inductive HalRes (A : Type) where
  | ok (a : A)
  | err (e : Dma2.Error)

/-- `struct Transfer<Stream, B, Payload>`: owns the buffer and the
payload. -/
structure Transfer (B P : Type) where
  buffer : B
  payload : P

/-- `Transfer::new`. -/
def Transfer.new {B P : Type} (buffer : B) (payload : P) : Transfer B P :=
  { buffer := buffer, payload := payload }

/-- `Transfer::is_done` for the stream `s`: the error flag read first
(set ⇒ `Err(Transfer)`), otherwise the completion flag is returned. -/
def is_done (s : Fin 8) (h : Isr) : HalRes Bool :=
  if h.teif s then HalRes.err Dma2.Error.Transfer
  else HalRes.ok (h.tcif s)

/-- The side effects `wait` performs after the loop: the
`compiler_fence(SeqCst)` and the write of `ctcifN` into the flag-clear
register. -/
inductive Action where
  | fence
  | clearTc (s : Fin 8)
deriving DecidableEq

/-- Hardware effect of one action: the write-one-to-clear `ctcifN` bit
clears exactly stream `s`'s completion flag; the fence does not touch
registers. -/
def applyAction (h : Isr) : Action → Isr
  | Action.fence => h
  | Action.clearTc s =>
    { h with tcif := fun x => if x = s then false else h.tcif x }

/-- `Transfer::wait` for stream `s`: spin on `is_done` (the `?` operator
propagates `Err(Transfer)` immediately, consuming the handle without
returning buffer or payload); once `is_done` yields `true`, issue the
fence, write the clear bit, and hand back ownership of the buffer and
the payload. -/
def wait {B P : Type} (s : Fin 8) (t : Transfer B P) :
    List Isr → Option (HalRes (B × P) × List Action)
  | [] => none
  | h :: rest =>
    match is_done s h with
    | HalRes.err e => some (HalRes.err e, [])
    | HalRes.ok true =>
      some (HalRes.ok (t.buffer, t.payload), [Action.fence, Action.clearTc s])
    | HalRes.ok false => wait s t rest

/-- C4: `wait` polls `is_done` past any prefix of quiet reads; the first
decisive read decides the outcome.  If it shows the error flag, `wait`
returns `Err(Transfer)` having performed no action — the handle is
consumed and neither buffer nor payload is returned.  If it shows the
completion flag with the error flag clear, `wait` returns ownership of
the buffer and the payload, after a fence followed by the clear-bit write
(in that order), and applying those actions to the hardware leaves the
stream's completion flag clear. -/
theorem wait_first_decisive_read (B P : Type) (s : Fin 8)
    (t : Transfer B P) (pre : List Isr) (d : Isr) (rest : List Isr)
    (hpre : ∀ h ∈ pre, h.teif s = false ∧ h.tcif s = false) :
    (d.teif s = true →
      wait s t (pre ++ d :: rest) = some (HalRes.err Dma2.Error.Transfer, [])) ∧
    (d.teif s = false → d.tcif s = true →
      wait s t (pre ++ d :: rest) =
        some (HalRes.ok (t.buffer, t.payload),
          [Action.fence, Action.clearTc s]) ∧
      (([Action.fence, Action.clearTc s].foldl applyAction d).tcif s =
        false)) := by
  induction pre with
  | nil =>
    refine ⟨?_, ?_⟩
    · intro he
      simp [wait, is_done, he]
    · intro he hc
      refine ⟨?_, ?_⟩
      · simp [wait, is_done, he, hc]
      · simp [applyAction]
  | cons h0 pre ih =>
    have h0q := hpre h0 (List.mem_cons_self h0 pre)
    have hrec := ih (fun h hm => hpre h (List.mem_cons_of_mem h0 hm))
    refine ⟨?_, ?_⟩
    · intro he
      have : wait s t ((h0 :: pre) ++ d :: rest) =
          wait s t (pre ++ d :: rest) := by
        simp [wait, is_done, h0q.1, h0q.2]
      rw [this]
      exact hrec.1 he
    · intro he hc
      have : wait s t ((h0 :: pre) ++ d :: rest) =
          wait s t (pre ++ d :: rest) := by
        simp [wait, is_done, h0q.1, h0q.2]
      rw [this]
      exact hrec.2 he hc

/-- Witness for C4 on stream 5: one quiet read, then a read with the
completion flag set; and (via the error side at stream 5's read showing
the error flag) the claim's error clause exercised on a second list. -/
theorem wait_first_decisive_read_witness :
    (∀ h ∈ [Isr.mk (fun _ => false) (fun _ => false)],
      h.teif (5 : Fin 8) = false ∧ h.tcif (5 : Fin 8) = false) ∧
    (((Isr.mk (fun _ => true) (fun _ => false)).teif (5 : Fin 8) = true →
      wait (5 : Fin 8) (Transfer.new (37 : Nat) (42 : Nat))
        ([Isr.mk (fun _ => false) (fun _ => false)] ++
          Isr.mk (fun _ => true) (fun _ => false) :: []) =
        some (HalRes.err Dma2.Error.Transfer, [])) ∧
    ((Isr.mk (fun _ => true) (fun _ => false)).teif (5 : Fin 8) = false →
      (Isr.mk (fun _ => true) (fun _ => false)).tcif (5 : Fin 8) = true →
      wait (5 : Fin 8) (Transfer.new (37 : Nat) (42 : Nat))
        ([Isr.mk (fun _ => false) (fun _ => false)] ++
          Isr.mk (fun _ => true) (fun _ => false) :: []) =
        some (HalRes.ok ((37 : Nat), (42 : Nat)),
          [Action.fence, Action.clearTc (5 : Fin 8)]) ∧
      (([Action.fence, Action.clearTc (5 : Fin 8)].foldl applyAction
        (Isr.mk (fun _ => true) (fun _ => false))).tcif (5 : Fin 8) =
        false))) :=
  ⟨fun h hm => by
      simp only [List.mem_singleton] at hm
      subst hm
      exact ⟨rfl, rfl⟩,
    wait_first_decisive_read Nat Nat (5 : Fin 8)
      (Transfer.new (37 : Nat) (42 : Nat))
      [Isr.mk (fun _ => false) (fun _ => false)]
      (Isr.mk (fun _ => true) (fun _ => false)) []
      (fun h hm => by
        simp only [List.mem_singleton] at hm
        subst hm
        exact ⟨rfl, rfl⟩)⟩

end DmaHal

namespace Circ

/-! The circular double buffer.  No `CircBuffer` implementation exists
under `src/` (only the spec, §4.2, describes it), so the operation is
modelled from the spec. -/

/-- `circ_state` of the Circular Double Buffer. -/
inductive CircState where
  | Free
  | FillingHalf0
  | FillingHalf1
deriving DecidableEq

/-- The hardware flags of the stream dedicated to the circular buffer:
transfer-error, transfer-complete and half-transfer. -/
structure CircHw where
  te : Bool
  tc : Bool
  ht : Bool
deriving DecidableEq

/-- Result of one `read` poll: a read-only view of half 0 or half 1,
not-yet (`Pending`), or an error. -/
inductive ReadRes where
  | half0
  | half1
  | pending
  | err (e : Dma2.Error)
deriving DecidableEq

/-- Modelled from the spec: `CircBuffer::read` is absent from `src/`;
transcribed from spec §4.2 — assert the state is not `Free` (panic is
`none`); read the transfer-error flag first (`Err(Transfer)`); while in
`FillingHalf0`, a set transfer-complete flag means the hardware wrapped
into the unconsumed half (`Err(Overrun)`), else a set half-transfer flag
is cleared, the state moves to `FillingHalf1` and half 0 is returned,
else `Pending`; the `FillingHalf1` branch is the mirror image using half
1 and the transfer-complete flag. -/
def read (st : CircState) (h : CircHw) :
    Option (ReadRes × CircState × CircHw) :=
  match st with
  | CircState.Free => none
  | CircState.FillingHalf0 =>
    if h.te then some (ReadRes.err Dma2.Error.Transfer, st, h)
    else if h.tc then some (ReadRes.err Dma2.Error.Overrun, st, h)
    else if h.ht then
      some (ReadRes.half0, CircState.FillingHalf1, { h with ht := false })
    else some (ReadRes.pending, st, h)
  | CircState.FillingHalf1 =>
    if h.te then some (ReadRes.err Dma2.Error.Transfer, st, h)
    else if h.ht then some (ReadRes.err Dma2.Error.Overrun, st, h)
    else if h.tc then
      some (ReadRes.half1, CircState.FillingHalf0, { h with tc := false })
    else some (ReadRes.pending, st, h)

/-- C6: while the circular buffer is in `FillingHalf0`, observing the
transfer-complete flag set (with the error flag clear) before the
half-transfer flag was consumed makes `read` return `Err(Overrun)` and
leave the state — and the flags — unchanged. -/
theorem read_overrun_leaves_state (h : CircHw) (hte : h.te = false)
    (htc : h.tc = true) :
    read CircState.FillingHalf0 h =
      some (ReadRes.err Dma2.Error.Overrun, CircState.FillingHalf0, h) := by
  simp [read, hte, htc]

/-- Witness for C6 with the completion flag set, error and half-transfer
flags clear. -/
theorem read_overrun_leaves_state_witness :
    (CircHw.mk false true false).te = false ∧
    (CircHw.mk false true false).tc = true ∧
    read CircState.FillingHalf0 (CircHw.mk false true false) =
      some (ReadRes.err Dma2.Error.Overrun, CircState.FillingHalf0,
        CircHw.mk false true false) :=
  ⟨rfl, rfl, read_overrun_leaves_state (CircHw.mk false true false) rfl rfl⟩

end Circ
